import Mathlib

/-!
Shallow embedding of `sd_monitor.py`, the supervisor loop of the e-ink
picture-frame appliance: settings loading and merging, refresh-time
resolution, the quiet-hours evaluator, process lifecycle handling
(`start_frame_manager` / `stop_frame_manager`) and the decision step of
`monitor_sd_card`, together with theorems settling the specification
claims about these functions.
-/

namespace SdMonitor

/-- A JSON value as produced by `json.load` for a settings document.
Numbers are modelled as integers: every numeric configuration key the
monitor reads is integral. -/
inductive JVal where
  | jnull
  | jbool (b : Bool)
  | jnum (n : Int)
  | jstr (s : String)
  | jarr (xs : List JVal)
  | jobj (fields : List (String × JVal))

/-- The resolved settings dictionary: `load_settings` guarantees exactly the
keys of `DEFAULT_SETTINGS` are present, each holding some JSON value. -/
structure Settings where
  picture_mode : JVal
  change_interval_minutes : JVal
  stop_rotation_between : JVal
  s3_folder : JVal

/-- The module-level `DEFAULT_SETTINGS` dictionary of `sd_monitor.py`. -/
def DEFAULT_SETTINGS : Settings :=
  { picture_mode := .jstr "local"
    change_interval_minutes := .jnum 15
    stop_rotation_between := .jnull
    s3_folder := .jstr "s3_folder" }

/-- An override settings document (a parsed JSON object) restricted to the
keys of `DEFAULT_SETTINGS`: the merge loop of `load_settings` only copies
keys of `DEFAULT_SETTINGS` that are present in the document (`if key in
data`), so other keys of the document never influence the result. A field
is `some v` when the key is present in the document with value `v`
(`v` may be `jnull`). -/
structure SettingsDoc where
  picture_mode : Option JVal
  change_interval_minutes : Option JVal
  stop_rotation_between : Option JVal
  s3_folder : Option JVal

/-- The merge loop of `load_settings`: starting from a copy of `settings`,
overwrite each `DEFAULT_SETTINGS` key that is present in the document. -/
def mergeDoc (s : Settings) (d : SettingsDoc) : Settings :=
  { picture_mode := d.picture_mode.getD s.picture_mode
    change_interval_minutes := d.change_interval_minutes.getD s.change_interval_minutes
    stop_rotation_between := d.stop_rotation_between.getD s.stop_rotation_between
    s3_folder := d.s3_folder.getD s.s3_folder }

/-- `load_settings`: a copy of `DEFAULT_SETTINGS` shallow-merged with the
first settings document that exists and parses (`none` when no candidate
location yields a JSON dict, in which case the defaults stand). -/
def load_settings (found : Option SettingsDoc) : Settings :=
  match found with
  | none => DEFAULT_SETTINGS
  | some d => mergeDoc DEFAULT_SETTINGS d

/-- Python `str.strip()`: the characters of the string with leading and
trailing whitespace removed. -/
def pyStrip (s : String) : List Char :=
  (((s.toList.dropWhile Char.isWhitespace).reverse).dropWhile Char.isWhitespace).reverse

/-- Python `str.isdigit()`: nonempty and every character a decimal digit. -/
def pyIsDigit (cs : List Char) : Bool :=
  !cs.isEmpty && cs.all Char.isDigit

/-- The numeric value of a digit string. -/
def digitsToNat (cs : List Char) : Nat :=
  cs.foldl (fun acc c => acc * 10 + (c.toNat - 48)) 0

/-- Python `int(s)` on a string: optional surrounding whitespace, an
optional sign, then one or more decimal digits; `none` when the call
raises `ValueError`. -/
def pyIntOfString (s : String) : Option Int :=
  match pyStrip s with
  | '-' :: rest => if pyIsDigit rest then some (-(digitsToNat rest : Int)) else none
  | '+' :: rest => if pyIsDigit rest then some ((digitsToNat rest : Int)) else none
  | cs => if pyIsDigit cs then some ((digitsToNat cs : Int)) else none

/-- Python `int(v)` applied to a JSON value: succeeds on integers and
booleans (`True` is 1, `False` is 0) and on numeric strings; raises
(`none`) on `null`, arrays, objects and non-numeric strings. -/
def pyInt : JVal → Option Int
  | .jnum n => some n
  | .jbool b => some (if b then 1 else 0)
  | .jstr s => pyIntOfString s
  | _ => none

/-- The filesystem state of `refresh_time.txt` on the mounted SD card:
`none` when the file does not exist, `some (.error ())` when it exists but
opening or reading it raises, `some (.ok c)` when reading yields `c`. -/
structure SdCard where
  refreshFile : Option (Except Unit String)

/-- `get_refresh_time`: refresh time in seconds, preferring
`change_interval_minutes` from the settings (when `int()` of it succeeds
with a positive result), else the `refresh_time.txt` file on the SD card
(when its stripped content is a digit string), else 600. The Python
default argument `settings=None` stands for `DEFAULT_SETTINGS`. -/
def get_refresh_time (sd : SdCard) (settings : Settings) : Int :=
  let fromSettings : Option Int :=
    match settings.change_interval_minutes with
    | .jnull => none
    | v =>
      match pyInt v with
      | some minutes => if minutes > 0 then some (minutes * 60) else none
      | none => none
  match fromSettings with
  | some r => r
  | none =>
    match sd.refreshFile with
    | some (.ok content) =>
      let number := pyStrip content
      if pyIsDigit number then (digitsToNat number : Int) else 600
    | some (.error _) => 600
    | none => 600

/-- A `datetime.time` value (microseconds omitted; they refine the order the
same way seconds do). `parse_hhmm` produces values with `second = 0`. -/
structure TimeOfDay where
  hour : Nat
  minute : Nat
  second : Nat
deriving DecidableEq, Repr

/-- The `<` comparison of `datetime.time`: lexicographic on
(hour, minute, second). -/
def TimeOfDay.lt (a b : TimeOfDay) : Bool :=
  a.hour < b.hour ||
    (a.hour == b.hour &&
      (a.minute < b.minute || (a.minute == b.minute && a.second < b.second)))

/-- The `<=` comparison of `datetime.time`: lexicographic on
(hour, minute, second). -/
def TimeOfDay.le (a b : TimeOfDay) : Bool :=
  a.hour < b.hour ||
    (a.hour == b.hour &&
      (a.minute < b.minute || (a.minute == b.minute && a.second ≤ b.second)))

/-- `in_quiet_hours(now, evening, morning)`: true when `now.time()` falls in
the configured stop-rotation window; a same-day window when
`evening < morning`, a midnight-crossing window otherwise. -/
def in_quiet_hours (now evening morning : TimeOfDay) : Bool :=
  if TimeOfDay.lt evening morning then
    TimeOfDay.le evening now && TimeOfDay.lt now morning
  else
    TimeOfDay.le evening now || TimeOfDay.lt now morning

theorem TimeOfDay.lt_iff (a b : TimeOfDay) :
    TimeOfDay.lt a b = true ↔
      (a.hour < b.hour ∨ (a.hour = b.hour ∧
        (a.minute < b.minute ∨ (a.minute = b.minute ∧ a.second < b.second)))) := by
  simp [TimeOfDay.lt]

theorem TimeOfDay.le_iff (a b : TimeOfDay) :
    TimeOfDay.le a b = true ↔
      (a.hour < b.hour ∨ (a.hour = b.hour ∧
        (a.minute < b.minute ∨ (a.minute = b.minute ∧ a.second ≤ b.second)))) := by
  simp [TimeOfDay.le]

theorem TimeOfDay.not_lt_iff_le (a b : TimeOfDay) :
    TimeOfDay.lt a b = false ↔ TimeOfDay.le b a = true := by
  rw [← Bool.not_eq_true, TimeOfDay.lt_iff, TimeOfDay.le_iff]
  omega

/-- A directory entry under `SD_MOUNT_BASE` together with the
`os.path.isdir` observation for it. -/
structure MEntry where
  name : String
  isDir : Bool
deriving DecidableEq, Repr

/-- The pool of worker processes spawned by the monitor that are still
running: pids come from an increasing counter; a SIGTERM followed by
`wait()` removes a pid. `live` holds the running pids. -/
structure ProcWorld where
  nextPid : Nat
  live : List Nat
deriving DecidableEq, Repr

/-- `handle.poll() is None`: the process with this pid is still running. -/
def ProcWorld.isAlive (w : ProcWorld) (pid : Nat) : Bool :=
  decide (pid ∈ w.live)

/-- `send_signal(SIGTERM)` followed by `wait()`: the process is no longer
running afterwards. -/
def ProcWorld.kill (w : ProcWorld) (pid : Nat) : ProcWorld :=
  { w with live := w.live.filter (fun p => p != pid) }

/-- `subprocess.Popen(...)`: a fresh pid is allocated and running. -/
def ProcWorld.spawn (w : ProcWorld) : Nat × ProcWorld :=
  (w.nextPid, { nextPid := w.nextPid + 1, live := w.nextPid :: w.live })

/-- Worker processes exiting on their own between two poll ticks. -/
def applyDeaths (w : ProcWorld) (died : List Nat) : ProcWorld :=
  { w with live := w.live.filter (fun p => !decide (p ∈ died)) }

/-- The mutable state of `monitor_sd_card`: the module globals `process`
and `sd_was_removed` and the locals `sd_inserted` and `was_in_quiet`. -/
structure SupState where
  sd_inserted : Bool
  sd_was_removed : Bool
  was_in_quiet : Bool
  process : Option Nat
deriving DecidableEq, Repr

/-- `process is not None and process.poll() is None`. -/
def procAlive (st : SupState) (w : ProcWorld) : Bool :=
  match st.process with
  | some pid => w.isAlive pid
  | none => false

/-- The externally visible process actions of one call: SIGTERM+wait of the
old worker inside `start_frame_manager`, the `Popen` of a new worker with
the sd path and refresh seconds passed on its command line, and the
SIGTERM+wait of `stop_frame_manager` with its reason string. -/
inductive Event where
  | killedExisting (pid : Nat)
  | started (sdPath : String) (refreshSec : Int)
  | stopped (reason : String)
deriving DecidableEq, Repr

/-- `start_frame_manager(sd_path, settings)`: if the current worker handle
is set and the process is running, SIGTERM it and block in `wait()` until
it exits; then compute the refresh time from the settings passed in and
spawn a new worker, storing its handle in `process`. -/
def start_frame_manager (sdPath : String) (card : SdCard) (settings : Settings)
    (st : SupState) (w : ProcWorld) : SupState × ProcWorld × List Event :=
  let killRes :
      ProcWorld × List Event :=
    match st.process with
    | some pid =>
      if w.isAlive pid then (w.kill pid, [Event.killedExisting pid]) else (w, [])
    | none => (w, [])
  let refresh_time_sec := get_refresh_time card settings
  let spawned := killRes.1.spawn
  ({ st with process := some spawned.1 }, spawned.2,
    killRes.2 ++ [Event.started sdPath refresh_time_sec])

/-- `stop_frame_manager(reason)`: if the worker handle is set and the
process is running, SIGTERM it and wait; an exception raised while
signalling or waiting (`sigEx = true`) is caught and logged, never
propagated — the `Bool` in the result records whether such an error was
logged, and on that path the process may survive as an orphan. In every
case the handle is cleared (`process = None`). A handle whose process has
already exited is skipped entirely: success, no signal, no error. -/
def stop_frame_manager (reason : String) (sigEx : Bool)
    (st : SupState) (w : ProcWorld) : SupState × ProcWorld × Bool × List Event :=
  match st.process with
  | some pid =>
    if w.isAlive pid then
      if sigEx then ({ st with process := none }, w, true, [])
      else ({ st with process := none }, w.kill pid, false, [Event.stopped reason])
    else ({ st with process := none }, w, false, [])
  | none => ({ st with process := none }, w, false, [])

/-- One poll tick's observations: the quiet-hours evaluation for `now`, the
outcome of `os.listdir(SD_MOUNT_BASE)` with the `os.path.isdir` result for
each entry (`.error` when `listdir` raises, e.g. the mount root does not
exist), the refresh-file state of the first mounted volume, and the worker
pids that exited on their own since the previous tick. -/
structure Obs where
  in_quiet : Bool
  listing : Except Unit (List MEntry)
  card : SdCard
  died : List Nat

/-- The body of the `while True` loop of `monitor_sd_card`, one poll tick:
any exception (in particular a failing `os.listdir`) is caught at the
boundary of the iteration, leaving the supervisor state untouched;
otherwise the volume/quiet decision table is applied. Signal delivery in
the stop paths succeeds (`sigEx = false`). -/
def monitorTick (settings : Settings) (obs : Obs) (st : SupState) (w : ProcWorld) :
    SupState × ProcWorld × List Event :=
  match obs.listing with
  | .error _ => (st, w, [])
  | .ok items =>
    match items.filter (fun e => e.isDir) with
    | sdDir :: _ =>
      if obs.in_quiet then
        if procAlive st w then
          let s := stop_frame_manager "entering quiet hours" false st w
          ({ s.1 with sd_inserted := true, sd_was_removed := false, was_in_quiet := true },
            s.2.1, s.2.2.2)
        else
          ({ st with sd_inserted := true, sd_was_removed := false, was_in_quiet := true },
            w, [])
      else
        if !st.sd_inserted || st.sd_was_removed || !procAlive st w || st.was_in_quiet then
          let r := start_frame_manager sdDir.name obs.card settings st w
          ({ r.1 with sd_inserted := true, sd_was_removed := false, was_in_quiet := false },
            r.2.1, r.2.2)
        else (st, w, [])
    | [] =>
      if st.sd_inserted then
        let s := stop_frame_manager "SD card removed" false st w
        ({ s.1 with sd_inserted := false, sd_was_removed := true }, s.2.1, s.2.2.2)
      else (st, w, [])

/-- The state `monitor_sd_card` starts from: nothing inserted, nothing
removed, not in quiet hours, no worker handle. -/
def initState : SupState :=
  { sd_inserted := false, sd_was_removed := false, was_in_quiet := false, process := none }

/-- The process pool before the first spawn. -/
def initWorld : ProcWorld :=
  { nextPid := 0, live := [] }

/-- The polling driver: runs one tick per observation; between ticks the
worker processes recorded in `died` exit on their own. -/
def runTicks (settings : Settings) : List Obs → SupState × ProcWorld → SupState × ProcWorld
  | [], sw => sw
  | obs :: rest, (st, w) =>
    let r := monitorTick settings obs st (applyDeaths w obs.died)
    runTicks settings rest (r.1, r.2.1)

/-- The mutual-exclusion invariant: either no worker process is running, or
exactly one is and it is the one the supervisor's handle points to. -/
def WorkerInv (st : SupState) (w : ProcWorld) : Prop :=
  w.live = [] ∨ ∃ pid, st.process = some pid ∧ w.live = [pid]

theorem workerInv_applyDeaths (st : SupState) (w : ProcWorld) (died : List Nat)
    (h : WorkerInv st w) : WorkerInv st (applyDeaths w died) := by
  rcases h with h | ⟨pid, hp, hl⟩
  · left; simp [applyDeaths, h]
  · by_cases hd : pid ∈ died
    · left; simp [applyDeaths, hl, hd]
    · right; exact ⟨pid, hp, by simp [applyDeaths, hl, hd]⟩

theorem stop_frame_manager_live (reason : String) (st : SupState) (w : ProcWorld)
    (h : WorkerInv st w) :
    (stop_frame_manager reason false st w).2.1.live = [] ∧
    (stop_frame_manager reason false st w).1.process = none := by
  rcases h with h | ⟨pid, hp, hl⟩
  · cases hps : st.process with
    | none => simp [stop_frame_manager, hps, h]
    | some p =>
      have ha : w.isAlive p = false := by simp [ProcWorld.isAlive, h]
      simp [stop_frame_manager, hps, ha, h]
  · have ha : w.isAlive pid = true := by simp [ProcWorld.isAlive, hl]
    simp [stop_frame_manager, hp, ha, ProcWorld.kill, hl]

theorem start_frame_manager_spec (sdPath : String) (card : SdCard) (settings : Settings)
    (st : SupState) (w : ProcWorld) (h : WorkerInv st w) :
    (start_frame_manager sdPath card settings st w).1.process = some w.nextPid ∧
    (start_frame_manager sdPath card settings st w).2.1.live = [w.nextPid] ∧
    (start_frame_manager sdPath card settings st w).2.1.nextPid = w.nextPid + 1 := by
  rcases h with h | ⟨pid, hp, hl⟩
  · cases hps : st.process with
    | none => simp [start_frame_manager, hps, ProcWorld.spawn, h]
    | some p =>
      have ha : w.isAlive p = false := by simp [ProcWorld.isAlive, h]
      simp [start_frame_manager, hps, ha, ProcWorld.spawn, h]
  · have ha : w.isAlive pid = true := by simp [ProcWorld.isAlive, hl]
    simp [start_frame_manager, hp, ha, ProcWorld.spawn, ProcWorld.kill, hl]

theorem monitorTick_inv (settings : Settings) (obs : Obs) (st : SupState) (w : ProcWorld)
    (h : WorkerInv st w) :
    WorkerInv (monitorTick settings obs st w).1 (monitorTick settings obs st w).2.1 := by
  unfold monitorTick
  split
  · exact h
  · split
    · split
      · -- volume present, in quiet hours
        split
        · left
          exact (stop_frame_manager_live "entering quiet hours" st w h).1
        · exact h
      · -- volume present, not quiet
        rename_i sdDir tail heq hq
        split
        · right
          refine ⟨w.nextPid, ?_, ?_⟩
          · exact (start_frame_manager_spec sdDir.name obs.card settings st w h).1
          · exact (start_frame_manager_spec sdDir.name obs.card settings st w h).2.1
        · exact h
    · -- volume absent
      split
      · left
        exact (stop_frame_manager_live "SD card removed" st w h).1
      · exact h

theorem runTicks_inv (settings : Settings) (obsList : List Obs) (st : SupState)
    (w : ProcWorld) (h : WorkerInv st w) :
    WorkerInv (runTicks settings obsList (st, w)).1 (runTicks settings obsList (st, w)).2 := by
  induction obsList generalizing st w with
  | nil => simpa [runTicks] using h
  | cons obs rest ih =>
    have h1 := workerInv_applyDeaths st w obs.died h
    have h2 := monitorTick_inv settings obs st (applyDeaths w obs.died) h1
    simpa [runTicks] using ih _ _ h2

/-- Claim C1: for every sequence of poll ticks, at the end of each tick at
most one worker process is alive in the supervisor state; and whenever a
(re)start finds a live worker, start_frame_manager first SIGTERMs it and
waits for it to exit before spawning the replacement — the kill action
strictly precedes the spawn in the call's event sequence. -/
theorem C1_at_most_one_live_worker (settings : Settings) (obsList : List Obs) :
    ((runTicks settings obsList (initState, initWorld)).2).live.length ≤ 1 ∧
    (∀ sdPath card st w pid, st.process = some pid → w.isAlive pid = true →
      (start_frame_manager sdPath card settings st w).2.2 =
        [Event.killedExisting pid,
          Event.started sdPath (get_refresh_time card settings)]) := by
  constructor
  · have h0 : WorkerInv initState initWorld := Or.inl rfl
    rcases runTicks_inv settings obsList initState initWorld h0 with h | ⟨pid, _, h⟩ <;>
      simp [h]
  · intro sdPath card st w pid hp ha
    simp [start_frame_manager, hp, ha]

/-- Claim C3: for every time of day and every quiet window, in_quiet_hours
is true on a same-day window (evening before morning) exactly between
evening (inclusive) and morning (exclusive); on a midnight-crossing window
(morning not after evening) exactly when the time is at or after evening
or before morning; and when evening equals morning it is true at every
time. The function is a pure total Lean function, deterministic over all
time pairs. -/
theorem C3_in_quiet_hours_windows (now evening morning : TimeOfDay) :
    (TimeOfDay.lt evening morning = true →
      (in_quiet_hours now evening morning = true ↔
        (TimeOfDay.le evening now = true ∧ TimeOfDay.lt now morning = true))) ∧
    (TimeOfDay.le morning evening = true →
      (in_quiet_hours now evening morning = true ↔
        (TimeOfDay.le evening now = true ∨ TimeOfDay.lt now morning = true))) ∧
    (evening = morning → in_quiet_hours now evening morning = true) := by
  refine ⟨?_, ?_, ?_⟩
  · intro h
    simp [in_quiet_hours, h]
  · intro h
    have hlt : TimeOfDay.lt evening morning = false :=
      (TimeOfDay.not_lt_iff_le evening morning).mpr h
    simp [in_quiet_hours, hlt]
  · intro h
    subst h
    have hlt : TimeOfDay.lt evening evening = false := by
      rw [← Bool.not_eq_true, TimeOfDay.lt_iff]; omega
    simp only [in_quiet_hours, hlt, Bool.false_eq_true, if_false, Bool.or_eq_true,
      TimeOfDay.le_iff, TimeOfDay.lt_iff]
    omega

/-- Claim C8: stop_frame_manager always clears the worker handle when it
returns — also when delivering SIGTERM or waiting raises, in which case
the error is only logged (recorded in the returned flag), never
propagated; a handle whose process has already exited is treated as
success: nothing is signalled, no error is logged, and the handle is
cleared as well. -/
theorem C8_stop_always_clears_handle (reason : String) (sigEx : Bool)
    (st : SupState) (w : ProcWorld) :
    (stop_frame_manager reason sigEx st w).1.process = none ∧
    (procAlive st w = false →
      (stop_frame_manager reason sigEx st w).2.2.1 = false ∧
      (stop_frame_manager reason sigEx st w).2.1 = w ∧
      (stop_frame_manager reason sigEx st w).2.2.2 = []) := by
  cases hp : st.process with
  | none => simp [stop_frame_manager, hp]
  | some pid =>
    by_cases ha : w.isAlive pid = true
    · cases sigEx <;> simp [stop_frame_manager, hp, ha, procAlive]
    · simp [stop_frame_manager, hp, Bool.eq_false_iff.mpr ha]

/-- Claim C9: the configuration merge of load_settings is idempotent —
merging the same override document onto the already-merged defaults
changes nothing, for every override document. -/
theorem C9_merge_idempotent (d : SettingsDoc) :
    mergeDoc (mergeDoc DEFAULT_SETTINGS d) d = mergeDoc DEFAULT_SETTINGS d := by
  obtain ⟨p, c, q, f⟩ := d
  cases p <;> cases c <;> cases q <;> cases f <;> rfl

/-- A state in which the volume was inserted on an earlier tick and the
worker with pid 0 is still running. -/
def c2State : SupState :=
  { sd_inserted := true, sd_was_removed := false, was_in_quiet := false, process := some 0 }

/-- The process pool matching `c2State`: pid 0 is running. -/
def c2World : ProcWorld :=
  { nextPid := 1, live := [0] }

/-- A tick observation in which `os.listdir(SD_MOUNT_BASE)` raises. -/
def c2Obs : Obs :=
  { in_quiet := false, listing := .error (), card := { refreshFile := none }, died := [] }

/-- Claim C2 is false on the code: on a tick where listing the mount root
fails while the volume was previously inserted, the exception is caught at
the loop boundary and the iteration is skipped — the worker keeps running,
the was-removed flag stays clear and the inserted flag stays set, unlike
the volume-removed behaviour the claim predicts. -/
theorem C2_counterexample :
    (monitorTick DEFAULT_SETTINGS c2Obs c2State c2World).1.sd_inserted = true ∧
    (monitorTick DEFAULT_SETTINGS c2Obs c2State c2World).1.sd_was_removed = false ∧
    procAlive (monitorTick DEFAULT_SETTINGS c2Obs c2State c2World).1
      (monitorTick DEFAULT_SETTINGS c2Obs c2State c2World).2.1 = true := by
  refine ⟨rfl, rfl, ?_⟩
  decide

/-- Claim C2 amended: a tick in which listing the mount root fails (for
any reason, including the root not existing) is skipped entirely — the
supervisor state, the process pool and the emitted events are exactly
those before the tick; in particular the failure is not treated as
"volume absent" and does not trigger the volume-removed transition. -/
theorem C2_amended_listing_error_skips_tick (settings : Settings) (obs : Obs)
    (st : SupState) (w : ProcWorld) (herr : obs.listing = .error ()) :
    monitorTick settings obs st w = (st, w, []) := by
  unfold monitorTick
  rw [herr]

/-- Witness for the amended claim C2 at a concrete failing listing. -/
theorem C2_amended_witness :
    monitorTick DEFAULT_SETTINGS c2Obs c2State c2World = (c2State, c2World, []) :=
  C2_amended_listing_error_skips_tick DEFAULT_SETTINGS c2Obs c2State c2World rfl

/-- Settings whose change_interval_minutes is the JSON string "12" — a
value that is not an integer but that Python's int() coerces. -/
def c10Settings : Settings :=
  { DEFAULT_SETTINGS with change_interval_minutes := .jstr "12" }

/-- An SD card whose refresh_time.txt exists, is readable and holds the
digit string "300". -/
def c10Card : SdCard :=
  { refreshFile := some (.ok "300") }

/-- Claim C10 is false on the code: with change_interval_minutes = "12"
(a string, not a positive integer) the claimed fallback chain would read
refresh_time.txt and return 300, but int("12") succeeds, so
get_refresh_time returns 12 * 60 = 720 without consulting the file. -/
theorem C10_counterexample :
    get_refresh_time c10Card c10Settings = 720 ∧ (720 : Int) ≠ 300 := by
  constructor
  · decide
  · decide

/-- The settings-derived interval of the amended refresh-time contract:
int() of change_interval_minutes (integers, booleans and numeric strings
all coerce; null, arrays, objects and other strings fail), kept only when
positive, converted to seconds. -/
def settingsInterval (settings : Settings) : Option Int :=
  match pyInt settings.change_interval_minutes with
  | some minutes => if 0 < minutes then some (minutes * 60) else none
  | none => none

/-- The file-derived interval of the amended refresh-time contract: the
stripped content of refresh_time.txt when it is a digit string, and 600
when the file is absent, unreadable or not a digit string. -/
def fileInterval (sd : SdCard) : Int :=
  match sd.refreshFile with
  | some (.ok content) =>
    if pyIsDigit (pyStrip content) then (digitsToNat (pyStrip content) : Int) else 600
  | some (.error _) => 600
  | none => 600

/-- Claim C10 amended: get_refresh_time is a total function equal to the
chain "settings interval when int() of change_interval_minutes succeeds
with a positive value; otherwise the file interval, which defaults to 600
when the file is absent, unreadable or non-numeric". -/
theorem C10_amended_refresh_chain (sd : SdCard) (settings : Settings) :
    get_refresh_time sd settings = (settingsInterval settings).getD (fileInterval sd) := by
  unfold get_refresh_time settingsInterval fileInterval
  cases hc : settings.change_interval_minutes with
  | jnull => rfl
  | jbool b => cases b <;> rfl
  | jnum n =>
    simp only [pyInt]
    by_cases hn : 0 < n
    · simp [hn]
    · simp [hn]
  | jstr s =>
    simp only [pyInt]
    cases hs : pyIntOfString s with
    | none => rfl
    | some m =>
      by_cases hm : 0 < m
      · simp [hm]
      · simp [hm]
  | jarr xs => rfl
  | jobj fields => rfl

theorem start_frame_manager_handle (sdPath : String) (card : SdCard)
    (settings : Settings) (st : SupState) (w : ProcWorld) :
    (start_frame_manager sdPath card settings st w).1.process = some w.nextPid ∧
    (start_frame_manager sdPath card settings st w).2.1.isAlive w.nextPid = true := by
  unfold start_frame_manager ProcWorld.spawn ProcWorld.kill ProcWorld.isAlive
  cases hp : st.process with
  | none => simp
  | some pid => by_cases ha : decide (pid ∈ w.live) = true <;> simp [ha]

theorem start_frame_manager_kills_old (sdPath : String) (card : SdCard)
    (settings : Settings) (st : SupState) (w : ProcWorld) (p : Nat)
    (hp : st.process = some p) (ha : w.isAlive p = true)
    (hfresh : ∀ q ∈ w.live, q < w.nextPid) :
    (start_frame_manager sdPath card settings st w).2.1.isAlive p = false := by
  have hmem : p ∈ w.live := by simpa [ProcWorld.isAlive] using ha
  have hlt : p < w.nextPid := hfresh p hmem
  unfold start_frame_manager ProcWorld.spawn ProcWorld.kill ProcWorld.isAlive
  simp [hp, hmem, List.mem_filter]
  omega

/-- Claim C4: on a tick with the volume present and quiet hours inactive,
the supervisor (re)starts the worker exactly when the volume is newly
seen, the was-removed flag is set, the worker is not alive, or the
was-in-quiet flag is set; the restart stops a still-live worker before the
new spawn, stores the fresh handle and then sets the inserted flag and
clears the was-removed and was-in-quiet flags. When none of the conditions
holds, the tick changes nothing at all. -/
theorem C4_present_not_quiet (settings : Settings) (obs : Obs) (st : SupState)
    (w : ProcWorld) (items : List MEntry) (sdDir : MEntry) (rest : List MEntry)
    (hok : obs.listing = .ok items)
    (hdirs : items.filter (fun e => e.isDir) = sdDir :: rest)
    (hq : obs.in_quiet = false)
    (hfresh : ∀ p ∈ w.live, p < w.nextPid) :
    ((!st.sd_inserted || st.sd_was_removed || !procAlive st w || st.was_in_quiet) = true →
      (monitorTick settings obs st w).1.sd_inserted = true ∧
      (monitorTick settings obs st w).1.sd_was_removed = false ∧
      (monitorTick settings obs st w).1.was_in_quiet = false ∧
      (monitorTick settings obs st w).1.process = some w.nextPid ∧
      (monitorTick settings obs st w).2.1.isAlive w.nextPid = true ∧
      (∀ p, st.process = some p → w.isAlive p = true →
        (monitorTick settings obs st w).2.1.isAlive p = false)) ∧
    ((!st.sd_inserted || st.sd_was_removed || !procAlive st w || st.was_in_quiet) = false →
      monitorTick settings obs st w = (st, w, [])) := by
  unfold monitorTick
  rw [hok]
  simp only [hdirs]
  rw [if_neg (by simp [hq])]
  constructor
  · intro hneed
    rw [if_pos hneed]
    refine ⟨rfl, rfl, rfl, ?_, ?_, ?_⟩
    · exact (start_frame_manager_handle sdDir.name obs.card settings st w).1
    · exact (start_frame_manager_handle sdDir.name obs.card settings st w).2
    · intro p hp ha
      exact start_frame_manager_kills_old sdDir.name obs.card settings st w p hp ha hfresh
  · intro hneed
    rw [if_neg (by simp [hneed])]

/-- A present, not-quiet observation over an empty SD card. -/
def c4Obs : Obs :=
  { in_quiet := false, listing := .ok [{ name := "SD", isDir := true }],
    card := { refreshFile := none }, died := [] }

/-- Witness for claim C4 at a concrete first-sight tick: the worker is
started, its handle stored, and the inserted flag set. -/
theorem C4_witness :
    (monitorTick DEFAULT_SETTINGS c4Obs initState initWorld).1.sd_inserted = true ∧
    (monitorTick DEFAULT_SETTINGS c4Obs initState initWorld).1.process = some 0 := by
  have h := C4_present_not_quiet DEFAULT_SETTINGS c4Obs initState initWorld
    [{ name := "SD", isDir := true }] { name := "SD", isDir := true } [] rfl rfl rfl
    (by simp [initWorld])
  have h1 := h.1 (by decide)
  exact ⟨h1.1, h1.2.2.2.1⟩

/-- A quiet-hours tick with the volume present: quiet is active and the
listing succeeded with at least one directory entry. -/
def QuietPresent (obs : Obs) : Prop :=
  obs.in_quiet = true ∧
  ∃ items sdDir rest, obs.listing = .ok items ∧
    items.filter (fun e => e.isDir) = sdDir :: rest

theorem quiet_tick (settings : Settings) (obs : Obs) (st : SupState) (w : ProcWorld)
    (hq : QuietPresent obs) :
    (monitorTick settings obs st w).1.was_in_quiet = true ∧
    (monitorTick settings obs st w).1.sd_inserted = true ∧
    (monitorTick settings obs st w).2.1.nextPid = w.nextPid ∧
    procAlive (monitorTick settings obs st w).1 (monitorTick settings obs st w).2.1 = false ∧
    (procAlive st w = true →
      (monitorTick settings obs st w).2.2 = [Event.stopped "entering quiet hours"]) := by
  obtain ⟨hin, items, sdDir, rest, hok, hdirs⟩ := hq
  unfold monitorTick
  rw [hok]
  simp only [hdirs]
  rw [if_pos hin]
  by_cases ha : procAlive st w = true
  · rw [if_pos ha]
    have hps : ∃ pid, st.process = some pid ∧ w.isAlive pid = true := by
      unfold procAlive at ha
      cases hp : st.process with
      | none => rw [hp] at ha; cases ha
      | some pid => exact ⟨pid, rfl, by rwa [hp] at ha⟩
    obtain ⟨pid, hp, hal⟩ := hps
    simp [stop_frame_manager, hp, hal, procAlive, ProcWorld.kill]
  · rw [if_neg ha]
    have hdead : procAlive st w = false := Bool.eq_false_iff.mpr ha
    exact ⟨rfl, rfl, rfl, hdead, fun h => absurd h ha⟩

theorem runTicks_quiet_no_restart (settings : Settings) (moreObs : List Obs)
    (st : SupState) (w : ProcWorld)
    (hall : ∀ o ∈ moreObs, QuietPresent o)
    (hdead : procAlive st w = false) :
    (runTicks settings moreObs (st, w)).2.nextPid = w.nextPid ∧
    procAlive (runTicks settings moreObs (st, w)).1
      (runTicks settings moreObs (st, w)).2 = false := by
  induction moreObs generalizing st w with
  | nil => exact ⟨rfl, hdead⟩
  | cons o rest ih =>
    have hq := hall o (by simp)
    have hrest : ∀ o' ∈ rest, QuietPresent o' := fun o' ho' => hall o' (by simp [ho'])
    have hQ := quiet_tick settings o st (applyDeaths w o.died) hq
    have htail := ih (monitorTick settings o st (applyDeaths w o.died)).1
      (monitorTick settings o st (applyDeaths w o.died)).2.1 hrest hQ.2.2.2.1
    simp only [runTicks]
    exact ⟨by rw [htail.1, hQ.2.2.1]; rfl, htail.2⟩

/-- Claim C5: on a tick with the volume present and quiet hours active, a
still-running worker is stopped with reason "entering quiet hours", the
was-in-quiet flag is set and the inserted flag remains or becomes set;
after the tick no worker is alive, and over any run of further quiet,
volume-present ticks no worker is spawned (the pid counter never moves)
and none is alive — the worker stays stopped while quiet hours last. -/
theorem C5_quiet_stops_and_suppresses (settings : Settings) (obs : Obs)
    (st : SupState) (w : ProcWorld) (hq : QuietPresent obs) :
    (monitorTick settings obs st w).1.was_in_quiet = true ∧
    (monitorTick settings obs st w).1.sd_inserted = true ∧
    (procAlive st w = true →
      (monitorTick settings obs st w).2.2 = [Event.stopped "entering quiet hours"]) ∧
    procAlive (monitorTick settings obs st w).1 (monitorTick settings obs st w).2.1 = false ∧
    (∀ moreObs : List Obs, (∀ o ∈ moreObs, QuietPresent o) →
      (runTicks settings moreObs
          ((monitorTick settings obs st w).1, (monitorTick settings obs st w).2.1)).2.nextPid =
        (monitorTick settings obs st w).2.1.nextPid ∧
      procAlive
        (runTicks settings moreObs
          ((monitorTick settings obs st w).1, (monitorTick settings obs st w).2.1)).1
        (runTicks settings moreObs
          ((monitorTick settings obs st w).1, (monitorTick settings obs st w).2.1)).2 =
        false) := by
  have hQ := quiet_tick settings obs st w hq
  refine ⟨hQ.1, hQ.2.1, hQ.2.2.2.2, hQ.2.2.2.1, ?_⟩
  intro moreObs hall
  exact runTicks_quiet_no_restart settings moreObs _ _ hall hQ.2.2.2.1

/-- A quiet-hours observation with the volume present. -/
def c5Obs : Obs :=
  { in_quiet := true, listing := .ok [{ name := "SD", isDir := true }],
    card := { refreshFile := none }, died := [] }

/-- A state whose volume is inserted and whose worker (pid 0) is running. -/
def c5State : SupState :=
  { sd_inserted := true, sd_was_removed := false, was_in_quiet := false, process := some 0 }

/-- The process pool matching `c5State`. -/
def c5World : ProcWorld :=
  { nextPid := 1, live := [0] }

/-- Witness for claim C5 at a concrete quiet tick over a running worker. -/
theorem C5_witness :
    (monitorTick DEFAULT_SETTINGS c5Obs c5State c5World).1.was_in_quiet = true ∧
    (monitorTick DEFAULT_SETTINGS c5Obs c5State c5World).2.2 =
      [Event.stopped "entering quiet hours"] := by
  have h := C5_quiet_stops_and_suppresses DEFAULT_SETTINGS c5Obs c5State c5World
    ⟨rfl, [{ name := "SD", isDir := true }], { name := "SD", isDir := true }, [], rfl, rfl⟩
  exact ⟨h.1, h.2.2.1 (by decide)⟩

theorem stop_frame_manager_result (reason : String) (st : SupState) (w : ProcWorld) :
    (stop_frame_manager reason false st w).1 = { st with process := none } ∧
    (∀ p, st.process = some p → (stop_frame_manager reason false st w).2.1.isAlive p = false) ∧
    (procAlive st w = true →
      (stop_frame_manager reason false st w).2.2.2 = [Event.stopped reason]) := by
  cases hp : st.process with
  | none =>
    refine ⟨by simp [stop_frame_manager, hp], ?_, ?_⟩
    · intro p hp'
      cases hp'
    · intro ha
      simp [procAlive, hp] at ha
  | some p =>
    by_cases hal : w.isAlive p = true
    · have hmem : p ∈ w.live := by simpa [ProcWorld.isAlive] using hal
      refine ⟨by simp [stop_frame_manager, hp, hal], ?_, ?_⟩
      · intro p' hp'
        cases hp'
        simp [stop_frame_manager, hp, hal, hmem, ProcWorld.kill, ProcWorld.isAlive,
          List.mem_filter]
      · intro _
        simp [stop_frame_manager, hp, hal]
    · have hal' : w.isAlive p = false := Bool.eq_false_iff.mpr hal
      refine ⟨by simp [stop_frame_manager, hp, hal'], ?_, ?_⟩
      · intro p' hp'
        cases hp'
        simp [stop_frame_manager, hp, hal', ProcWorld.isAlive] at hal' ⊢
        simp [hal']
      · intro ha
        simp only [procAlive, hp] at ha
        exact absurd ha hal

/-- Claim C6: on a tick with the volume absent, if the inserted flag was
set the worker is stopped (with reason "SD card removed") and its handle
cleared, the was-removed flag is set and the inserted flag cleared, the
was-in-quiet flag untouched; if the inserted flag was not set, the
supervisor state, the process pool and the event list are all unchanged. -/
theorem C6_absent_tick (settings : Settings) (obs : Obs) (st : SupState) (w : ProcWorld)
    (items : List MEntry) (hok : obs.listing = .ok items)
    (hdirs : items.filter (fun e => e.isDir) = []) :
    (st.sd_inserted = true →
      (monitorTick settings obs st w).1.sd_inserted = false ∧
      (monitorTick settings obs st w).1.sd_was_removed = true ∧
      (monitorTick settings obs st w).1.was_in_quiet = st.was_in_quiet ∧
      (monitorTick settings obs st w).1.process = none ∧
      (∀ p, st.process = some p → (monitorTick settings obs st w).2.1.isAlive p = false) ∧
      (procAlive st w = true →
        (monitorTick settings obs st w).2.2 = [Event.stopped "SD card removed"])) ∧
    (st.sd_inserted = false → monitorTick settings obs st w = (st, w, [])) := by
  unfold monitorTick
  rw [hok]
  simp only [hdirs]
  have hs := stop_frame_manager_result "SD card removed" st w
  constructor
  · intro hins
    rw [if_pos hins]
    refine ⟨rfl, rfl, ?_, ?_, hs.2.1, hs.2.2⟩
    · rw [hs.1]
    · rw [hs.1]
  · intro hins
    rw [if_neg (by simp [hins])]

/-- An observation in which the mount root lists successfully but holds no
directory entry. -/
def c6Obs : Obs :=
  { in_quiet := false, listing := .ok [], card := { refreshFile := none }, died := [] }

/-- Witness for claim C6 at a concrete removal tick. -/
theorem C6_witness :
    (monitorTick DEFAULT_SETTINGS c6Obs c5State c5World).1.sd_inserted = false ∧
    (monitorTick DEFAULT_SETTINGS c6Obs c5State c5World).1.sd_was_removed = true ∧
    (monitorTick DEFAULT_SETTINGS c6Obs c5State c5World).1.process = none := by
  have h := C6_absent_tick DEFAULT_SETTINGS c6Obs c5State c5World [] rfl rfl
  exact ⟨(h.1 rfl).1, (h.1 rfl).2.1, (h.1 rfl).2.2.2.1⟩

/-- Recognizer for worker-spawn events. -/
def Event.isStart : Event → Bool
  | .started _ _ => true
  | _ => false

/-- Claim C7: every call of start_frame_manager recomputes the refresh
interval from the settings passed in at that moment and spawns exactly one
worker carrying it (the only spawn event of the call holds the value
get_refresh_time computes from those settings); when the configured
change_interval_minutes is a positive integer n, that value is n * 60
seconds. -/
theorem C7_refresh_recomputed_each_start (sdPath : String) (card : SdCard)
    (settings : Settings) (st : SupState) (w : ProcWorld) (n : Int)
    (hn : settings.change_interval_minutes = JVal.jnum n) (hpos : 0 < n) :
    ((start_frame_manager sdPath card settings st w).2.2.filter Event.isStart) =
      [Event.started sdPath (get_refresh_time card settings)] ∧
    get_refresh_time card settings = n * 60 := by
  constructor
  · unfold start_frame_manager
    cases hp : st.process with
    | none => simp [Event.isStart]
    | some p => by_cases hal : w.isAlive p = true <;> simp [hal, Event.isStart]
  · unfold get_refresh_time
    rw [hn]
    simp [pyInt, hpos]

/-- Witness for claim C7 at the default settings (15 minutes): the single
spawn carries 900 seconds. -/
theorem C7_witness :
    ((start_frame_manager "SD" { refreshFile := none } DEFAULT_SETTINGS initState
        initWorld).2.2.filter Event.isStart) =
      [Event.started "SD"
        (get_refresh_time { refreshFile := none } DEFAULT_SETTINGS)] ∧
    get_refresh_time { refreshFile := none } DEFAULT_SETTINGS = 15 * 60 :=
  C7_refresh_recomputed_each_start "SD" { refreshFile := none } DEFAULT_SETTINGS
    initState initWorld 15 rfl (by decide)

end SdMonitor
